import Mathlib

/-!
Shallow embedding of the plugin lifecycle core of `payment_go`
(`pkg/plugin/loader.go`), for checking the specification's claims about
the `PluginLoader` registry.

Modelling conventions:
* Go `time.Time` values are modelled as `Nat` timestamps; every operation that
  calls `time.Now()` in Go takes the current time as an explicit `now`
  parameter.  A fresh (zero-valued) `time.Time` is modelled as `0`.
* Go `int64` (the type of `UsageCount`) is modelled as `Int` together with an
  explicit two's-complement wrap `wrap64` applied wherever the Go code
  performs arithmetic.
* Go pointers `*LoadedPlugin` are modelled with an explicit heap: the registry
  holds a list of `LoadedPlugin` cells and the `plugins` map holds heap
  indices ("references").  Writing through a shared reference is
  `Registry.heapWrite`.  This captures the aliasing between the registry's
  map and the shallow copy returned by `ListPlugins`.
* The `plugins map[string]*LoadedPlugin` field is modelled as an association
  list with unique keys (insertion appends only after a failed lookup, as in
  the Go code, which checks existence before inserting).
* The `sync.RWMutex` is modelled explicitly by a `Mu` state threaded through
  every exported operation, because `ReloadPlugin` calls `LoadPlugin` while
  still holding the write lock and Go mutexes are not reentrant.  Acquiring
  an unavailable lock yields the `Res.blocked` outcome (the goroutine never
  returns).  Read-locked sections are modelled as running atomically from the
  `free` state; the interleaving of two read-locked `GetPlugin` critical
  sections, which the `RWMutex` does permit to overlap, is modelled
  separately and explicitly below (`raceStep`, `raceRun`).
* The `Plugin *plugin.Plugin` handle stored in each record is an opaque
  dlopen handle never consulted after load; it is omitted from the record.
* `ConfigSchema map[string]interface{}` of `PluginInfo` is informational,
  never read by the loader; it is omitted from the model.
* A Go nil-pointer dereference (calling a method on a nil interface) is the
  `Res.panicked` outcome.
-/

/-- Metadata declared by a plugin (`interfaces.PluginInfo`).  `description`
and `author` are carried but never validated, mirroring the source. -/
structure PluginInfo where
  name : String
  version : String
  description : String
  author : String
  channelType : String
  capabilities : List String
deriving DecidableEq, Repr

/-- The behaviour of a loaded plugin instance that the loader consults:
its `GetInfo()` method.  `GetInfo` returns a pointer, so its result is an
`Option PluginInfo` (`none` is a nil pointer).  The six payment operations
and `Initialize`/`ValidateConfig` are opaque to the loader and not modelled. -/
structure PluginInstance where
  getInfo : Option PluginInfo
deriving DecidableEq, Repr

/-- What the filesystem/dynamic-loader environment yields for a plugin path:
the possible outcomes of `plugin.Open`, the `NewPlugin` symbol lookup, the
signature assertion, and finally the factory's result (`none` = the factory
returned a nil instance). -/
inductive Artifact where
  | openError
  | missingNewPlugin
  | wrongSignature
  | factory (inst : Option PluginInstance)
deriving DecidableEq, Repr

/-- The environment: what loading each path produces. -/
abbrev Env : Type := String → Artifact

/-- Error kinds returned by the loader (Go returns `error` values built with
`fmt.Errorf`; we model the distinct failure messages as distinct kinds). -/
inductive PError where
  | alreadyLoaded
  | openFailed
  | missingNewPlugin
  | wrongSignature
  | nilInfo
  | emptyName
  | emptyVersion
  | emptyChannelType
  | noCapabilities
  | notFound
deriving DecidableEq, Repr

/-- Two's-complement wrap to signed 64-bit, applied where Go `int64`
arithmetic occurs. -/
def wrap64 (n : Int) : Int := (n + 2 ^ 63) % 2 ^ 64 - 2 ^ 63

/-- One registry record (`LoadedPlugin`).  The `plugin.Plugin` dlopen handle
is omitted (opaque, never consulted); `info` is the pointer stored from
`instance.GetInfo()` at load time. -/
structure LoadedPlugin where
  path : String
  inst : PluginInstance
  info : Option PluginInfo
  loadedAt : Nat
  lastUsed : Nat
  usageCount : Int
deriving DecidableEq, Repr

instance : Inhabited LoadedPlugin :=
  ⟨{ path := "", inst := ⟨none⟩, info := none, loadedAt := 0, lastUsed := 0,
     usageCount := 0 }⟩

/-- Registry state: a heap of records and the channelID-to-reference map. -/
structure Registry where
  heap : List LoadedPlugin
  plugins : List (String × Nat)
deriving DecidableEq, Repr

/-- Lookup in an association list (first match; keys are unique by
construction, so this is Go map lookup). -/
def assocFind {α : Type} (ch : String) : List (String × α) → Option α
  | [] => none
  | p :: ps => if p.1 = ch then some p.2 else assocFind ch ps

/-- Go map `delete`: remove the binding for `ch`. -/
def assocErase {α : Type} (ch : String) (l : List (String × α)) :
    List (String × α) :=
  l.filter (fun p => p.1 ≠ ch)

/-- Read a heap cell through a reference.  References handed out by the
model are always in bounds (Go pointers are always valid); out-of-range
reads return the default cell. -/
def Registry.heapRead (r : Registry) (ref : Nat) : LoadedPlugin :=
  r.heap.getD ref default

/-- Write a heap cell through a reference: this is what any holder of the
corresponding `*LoadedPlugin` pointer does when it assigns to the record's
fields, whether that holder is the registry itself or a caller that obtained
the pointer from a `ListPlugins` snapshot. -/
def Registry.heapWrite (r : Registry) (ref : Nat) (lp : LoadedPlugin) :
    Registry :=
  { r with heap := r.heap.set ref lp }

/-- Mutex state of the registry's `sync.RWMutex`.  Read-locked sections are
modelled as atomic from `free` (see header comment), so only `free` and
write-locked arise at the modelled step boundaries. -/
inductive Mu where
  | free
  | wlocked
deriving DecidableEq, Repr

/-- Lock-aware registry state. -/
abbrev LState : Type := Mu × Registry

/-- Outcome of invoking an operation: it returns a value, blocks forever on
an unavailable lock, or panics (nil dereference). -/
inductive Res (α : Type) where
  | done (a : α)
  | blocked
  | panicked
deriving DecidableEq, Repr

/-- Translation of `validatePluginInfo` (loader.go:147-165): nil info, then
empty `Name`, `Version`, `ChannelType`, then `len(Capabilities) == 0`, in
that order. -/
def validatePluginInfo : Option PluginInfo → Option PError
  | none => some .nilInfo
  | some i =>
    if i.name = "" then some .emptyName
    else if i.version = "" then some .emptyVersion
    else if i.channelType = "" then some .emptyChannelType
    else if i.capabilities.length = 0 then some .noCapabilities
    else none

/-- The record `LoadPlugin` stores on success (loader.go:76-83): `LoadedAt`
is set to the current time; `LastUsed` and `UsageCount` are left at their
zero values. -/
def freshRecord (path : String) (inst : PluginInstance) (now : Nat) :
    LoadedPlugin :=
  { path := path, inst := inst, info := inst.getInfo, loadedAt := now,
    lastUsed := 0, usageCount := 0 }

/-- Body of `LoadPlugin` (loader.go:37-85), run under the write lock.
Result `none` is success; `Res.panicked` is the nil dereference that occurs
when the factory returns a nil instance and the code proceeds to call
`instance.GetInfo()` on it without a nil check (loader.go:64-67). -/
def loadBody (env : Env) (now : Nat) (path ch : String) (r : Registry) :
    Res (Option PError) × Registry :=
  if (assocFind ch r.plugins).isSome then (.done (some .alreadyLoaded), r)
  else
    match env path with
    | .openError => (.done (some .openFailed), r)
    | .missingNewPlugin => (.done (some .missingNewPlugin), r)
    | .wrongSignature => (.done (some .wrongSignature), r)
    | .factory none => (.panicked, r)
    | .factory (some inst) =>
      match validatePluginInfo inst.getInfo with
      | some e => (.done (some e), r)
      | none =>
        (.done none, { heap := r.heap ++ [freshRecord path inst now],
                       plugins := r.plugins ++ [(ch, r.heap.length)] })

/-- `LoadPlugin`: acquires the write lock, runs the body, releases.  If the
lock is unavailable the goroutine blocks forever. -/
def LoadPlugin (env : Env) (now : Nat) (path ch : String) :
    LState → Res (Option PError) × LState
  | (.free, r) =>
    let (res, r2) := loadBody env now path ch r
    (res, (.free, r2))
  | s => (.blocked, s)

/-- `GetPlugin` (loader.go:88-102): under the read lock, looks up the
record; on success writes `LastUsed = now` and `UsageCount++` through the
record pointer and returns the stored instance. -/
def GetPlugin (now : Nat) (ch : String) :
    LState → Res (Except PError PluginInstance) × LState
  | (.free, r) =>
    match assocFind ch r.plugins with
    | none => (.done (.error .notFound), (.free, r))
    | some ref =>
      let lp := r.heapRead ref
      let lp2 := { lp with lastUsed := now,
                           usageCount := wrap64 (lp.usageCount + 1) }
      (.done (.ok lp.inst), (.free, r.heapWrite ref lp2))
  | s => (.blocked, s)

/-- `UnloadPlugin` (loader.go:105-119): under the write lock, fails with
not-found if absent, otherwise deletes the map entry (the record cell stays
in memory, as Go plugin code cannot be unloaded). -/
def UnloadPlugin (ch : String) : LState → Res (Option PError) × LState
  | (.free, r) =>
    match assocFind ch r.plugins with
    | none => (.done (some .notFound), (.free, r))
    | some _ =>
      (.done none, (.free, { r with plugins := assocErase ch r.plugins }))
  | s => (.blocked, s)

/-- `ListPlugins` (loader.go:122-131): under the read lock, copies the map
into a fresh map and returns it.  The copy is entry-by-entry: the values are
the same record references, so the returned snapshot shares every
`LoadedPlugin` cell with the registry. -/
def ListPlugins : LState → Res (List (String × Nat)) × LState
  | (.free, r) => (.done r.plugins, (.free, r))
  | s => (.blocked, s)

/-- `GetPluginInfo` (loader.go:134-144): under the read lock, fails with
not-found if absent, otherwise returns the live `Instance.GetInfo()` result
(not the cached `info`). -/
def GetPluginInfo (ch : String) :
    LState → Res (Except PError (Option PluginInfo)) × LState
  | (.free, r) =>
    match assocFind ch r.plugins with
    | none => (.done (.error .notFound), (.free, r))
    | some ref => (.done (.ok (r.heapRead ref).inst.getInfo), (.free, r))
  | s => (.blocked, s)

/-- `ReloadPlugin` (loader.go:167-182): acquires the write lock, fails with
not-found if absent; otherwise captures the record's path, deletes the map
entry, and calls the exported `LoadPlugin` — which tries to acquire the
write lock the caller still holds. -/
def ReloadPlugin (env : Env) (now : Nat) (ch : String) :
    LState → Res (Option PError) × LState
  | (.free, r) =>
    match assocFind ch r.plugins with
    | none => (.done (some .notFound), (.free, r))
    | some ref =>
      let path := (r.heapRead ref).path
      let r2 : Registry := { r with plugins := assocErase ch r.plugins }
      LoadPlugin env now path ch (.wlocked, r2)
  | s => (.blocked, s)

/-- `HealthCheck` (loader.go:185-196): under the read lock, maps every
registered channel to whether its instance's `GetInfo()` returns a non-nil
pointer. -/
def HealthCheck : LState → Res (List (String × Bool)) × LState
  | (.free, r) =>
    (.done (r.plugins.map fun p => (p.1, (r.heapRead p.2).inst.getInfo.isSome)),
     (.free, r))
  | s => (.blocked, s)

/-!
Explicit interleaving model of `GetPlugin`'s read-locked critical section.

`GetPlugin` mutates the record under `mutex.RLock()`, which admits multiple
concurrent holders.  Two goroutines running the critical section
concurrently therefore interleave freely on the shared record cell.  Each
goroutine's critical section compiles to three shared-memory accesses, in
program order:
  step 0: `loadedPlugin.LastUsed = time.Now()`   (store LastUsed)
  step 1: read `loadedPlugin.UsageCount`          (load for the `++`)
  step 2: store the read value plus one           (store for the `++`)
-/

/-- Program counter and the `UsageCount` value read at step 1, for one
goroutine executing `GetPlugin`'s read-locked bookkeeping. -/
structure RaceThread where
  pc : Nat
  saved : Int
deriving DecidableEq, Repr

/-- A goroutine not yet started. -/
def RaceThread.start : RaceThread := { pc := 0, saved := 0 }

/-- One shared-memory access of `GetPlugin`'s bookkeeping (see the section
comment): returns the new shared record cell and the new thread state. -/
def raceStep (now : Nat) (cell : LoadedPlugin) (t : RaceThread) :
    LoadedPlugin × RaceThread :=
  match t.pc with
  | 0 => ({ cell with lastUsed := now }, { t with pc := 1 })
  | 1 => (cell, { pc := 2, saved := cell.usageCount })
  | 2 => ({ cell with usageCount := wrap64 (t.saved + 1) }, { t with pc := 3 })
  | _ => (cell, t)

/-- A goroutine that has run its whole critical section. -/
def RaceThread.finished (t : RaceThread) : Prop := t.pc = 3

instance (t : RaceThread) : Decidable t.finished := by
  unfold RaceThread.finished; infer_instance

/-- Run two concurrent `GetPlugin` bookkeeping sections over a shared record
cell under a schedule: `true` steps goroutine 1 (whose `time.Now()` is
`now1`), `false` steps goroutine 2 (`now2`). -/
def raceRun (now1 now2 : Nat) (sched : List Bool)
    (s : LoadedPlugin × RaceThread × RaceThread) :
    LoadedPlugin × RaceThread × RaceThread :=
  match sched with
  | [] => s
  | b :: rest =>
    let s2 :=
      if b then
        let (c, t) := raceStep now1 s.1 s.2.1
        (c, t, s.2.2)
      else
        let (c, t) := raceStep now2 s.1 s.2.2
        (c, s.2.1, t)
    raceRun now1 now2 rest s2

/-- Serial iteration of `GetPlugin` on one channel: one call per timestamp
in `times`, threading the lock-aware state. -/
def getPluginSeq (ch : String) (times : List Nat) (s : LState) : LState :=
  times.foldl (fun s t => (GetPlugin t ch s).2) s

/-! Concrete fixtures, used by witnesses and counterexamples: a mock plugin
mirroring the one in loader_test.go, an instance whose `GetInfo` returns a
nil pointer, and small registries built from them. -/

/-- Metadata of the test mock plugin (loader_test.go:66-72). -/
def mockInfo : PluginInfo :=
  { name := "Mock", version := "1.0.0", description := "", author := "",
    channelType := "mock", capabilities := ["collect_order"] }

/-- An instance whose `GetInfo` returns the mock metadata. -/
def mockInst : PluginInstance := ⟨some mockInfo⟩

/-- An instance whose `GetInfo` returns a nil pointer. -/
def deadInst : PluginInstance := ⟨none⟩

/-- The record a load of the mock plugin at time 5 inserts. -/
def mockRecord : LoadedPlugin := freshRecord "plugins/mock.so" mockInst 5

/-- Empty registry, as built by `NewPluginLoader`. -/
def emptyReg : Registry := { heap := [], plugins := [] }

/-- Registry holding the mock plugin under channel `mock`. -/
def oneReg : Registry := { heap := [mockRecord], plugins := [("mock", 0)] }

/-- Registry holding the mock plugin and a plugin whose `GetInfo` returns
nil, under channels `mock` and `dead`. -/
def twoReg : Registry :=
  { heap := [mockRecord, freshRecord "plugins/dead.so" deadInst 7],
    plugins := [("mock", 0), ("dead", 1)] }

/-- The mock record after a caller overwrites its instance field with the
nil-returning instance (a mutation made through a shared record pointer). -/
def mutatedRecord : LoadedPlugin := { mockRecord with inst := deadInst }

/-- Environment in which every path yields the mock plugin. -/
def envMock : Env := fun _ => .factory (some mockInst)

/-- Environment in which every factory returns a nil instance. -/
def envNilFactory : Env := fun _ => .factory none

/-- Environment in which every open fails. -/
def envOpenFail : Env := fun _ => .openError

/-! Helper lemmas. -/

theorem wrap64_eq_of_bounds {n : Int} (h0 : -(2 ^ 63) ≤ n)
    (h1 : n < 2 ^ 63) : wrap64 n = n := by
  unfold wrap64
  have hlo : (0 : Int) ≤ n + 2 ^ 63 := by linarith
  have hhi : n + 2 ^ 63 < 2 ^ 64 := by
    have : (2 : Int) ^ 64 = 2 ^ 63 + 2 ^ 63 := by norm_num
    linarith
  rw [Int.emod_eq_of_lt hlo hhi]
  ring

theorem wrap64_succ_of_nat {n : Int} (h0 : 0 ≤ n) (h1 : n + 1 < 2 ^ 63) :
    wrap64 (n + 1) = n + 1 := by
  apply wrap64_eq_of_bounds
  · have : (0 : Int) < 2 ^ 63 := by norm_num
    linarith
  · exact h1

/-- Association-list lookup over an append: the left list wins. -/
theorem assocFind_append {α : Type} (ch : String) (l m : List (String × α)) :
    assocFind ch (l ++ m) =
      match assocFind ch l with
      | some v => some v
      | none => assocFind ch m := by
  induction l with
  | nil => simp [assocFind]
  | cons p ps ih =>
    by_cases h : p.1 = ch <;> simp [assocFind, h, ih]


/-- A `LoadPlugin` call either leaves the whole state unchanged, or (when the
lock was free, the channel was unregistered, and the artifact produced an
instance with valid metadata) appends exactly one validated record. -/
theorem LoadPlugin_state (env : Env) (now : Nat) (path ch : String)
    (s : LState) :
    (LoadPlugin env now path ch s).2 = s
    ∨ ∃ inst : PluginInstance,
        validatePluginInfo inst.getInfo = none
        ∧ s.1 = .free
        ∧ assocFind ch s.2.plugins = none
        ∧ (LoadPlugin env now path ch s).2
            = (Mu.free,
               { heap := s.2.heap ++ [freshRecord path inst now],
                 plugins := s.2.plugins ++ [(ch, s.2.heap.length)] }) := by
  obtain ⟨mu, r⟩ := s
  cases mu with
  | wlocked => exact Or.inl rfl
  | free =>
    by_cases hex : (assocFind ch r.plugins).isSome
    · left; simp [LoadPlugin, loadBody, hex]
    · have hnone : assocFind ch r.plugins = none :=
        Option.not_isSome_iff_eq_none.mp hex
      cases hart : env path with
      | openError => left; simp [LoadPlugin, loadBody, hex, hart]
      | missingNewPlugin => left; simp [LoadPlugin, loadBody, hex, hart]
      | wrongSignature => left; simp [LoadPlugin, loadBody, hex, hart]
      | factory oinst =>
        cases oinst with
        | none => left; simp [LoadPlugin, loadBody, hex, hart]
        | some inst =>
          cases hval : validatePluginInfo inst.getInfo with
          | some e => left; simp [LoadPlugin, loadBody, hex, hart, hval]
          | none =>
            right
            exact ⟨inst, hval, rfl, hnone,
              by simp [LoadPlugin, loadBody, hex, hart, hval]⟩

/-- C1.  Registry metadata gate: `validatePluginInfo` fails exactly when the
metadata is nil, or `name`, `version`, or `channelType` is empty, or
`capabilities` is empty; and `LoadPlugin` never admits an invalid record:
every channel registered after a `LoadPlugin` call either carries over its
record unchanged from before the call, or carries metadata that passes
`validatePluginInfo`. -/
theorem registry_metadata_gate :
    ((validatePluginInfo none).isSome
      ∧ ∀ i : PluginInfo,
          (validatePluginInfo (some i)).isSome
            ↔ (i.name = "" ∨ i.version = "" ∨ i.channelType = ""
                ∨ i.capabilities = []))
    ∧ ∀ (env : Env) (now : Nat) (path ch : String) (s : LState)
        (ch' : String) (ref' : Nat),
        assocFind ch' ((LoadPlugin env now path ch s).2.2.plugins) = some ref' →
        (assocFind ch' s.2.plugins = some ref'
            ∧ (LoadPlugin env now path ch s).2.2.heapRead ref'
                = s.2.heapRead ref')
          ∨ validatePluginInfo
              (((LoadPlugin env now path ch s).2.2.heapRead ref').info)
              = none := by
  refine ⟨⟨by decide, ?_⟩, ?_⟩
  · intro i
    show (if i.name = "" then some PError.emptyName
      else if i.version = "" then some PError.emptyVersion
      else if i.channelType = "" then some PError.emptyChannelType
      else if i.capabilities.length = 0 then some PError.noCapabilities
      else none).isSome ↔ _
    constructor
    · intro h
      split_ifs at h with h1 h2 h3 h4
      · exact Or.inl h1
      · exact Or.inr (Or.inl h2)
      · exact Or.inr (Or.inr (Or.inl h3))
      · exact Or.inr (Or.inr (Or.inr (List.length_eq_zero.mp h4)))
      · simp at h
    · intro h
      split_ifs with h1 h2 h3 h4 <;> simp
      rcases h with h | h | h | h
      · exact h1 h
      · exact h2 h
      · exact h3 h
      · exact h4 (by simp [h])
  · intro env now path ch s ch' ref' h
    rcases LoadPlugin_state env now path ch s with heq | ⟨inst, hval, _, _, heq⟩
    · rw [heq] at h ⊢
      exact Or.inl ⟨h, rfl⟩
    · rw [heq] at h ⊢
      simp only [Registry.heapRead] at h ⊢
      rw [assocFind_append] at h
      cases hO : assocFind ch' s.2.plugins with
      | some v =>
        rw [hO] at h
        simp only [Option.some.injEq] at h
        subst h
        rcases lt_trichotomy v s.2.heap.length with hlt | hveq | hgt
        · exact Or.inl ⟨rfl, List.getD_append _ _ _ _ hlt⟩
        · right
          subst hveq
          rw [List.getD_append_right _ _ _ _ (le_refl _)]
          simpa using hval
        · refine Or.inl ⟨rfl, ?_⟩
          rw [List.getD_eq_default _ _ (by simp; omega),
            List.getD_eq_default _ _ (by omega)]
      | none =>
        rw [hO] at h
        simp only [assocFind] at h
        by_cases hch : ch = ch'
        · rw [if_pos hch] at h
          simp only [Option.some.injEq] at h
          right
          subst h
          rw [List.getD_append_right _ _ _ _ (le_refl _)]
          simpa using hval
        · rw [if_neg hch] at h
          exact absurd h (by simp)

/-- C1 witness: instantiating the gate at the mock plugin's metadata and at
a concrete load into the empty registry. -/
theorem registry_metadata_gate_witness :
    (assocFind "mock"
        ((LoadPlugin envMock 9 "plugins/mock.so" "mock"
            (Mu.free, emptyReg)).2.2.plugins) = some 0)
    ∧ ((assocFind "mock" (Mu.free, emptyReg).2.plugins = some 0
          ∧ (LoadPlugin envMock 9 "plugins/mock.so" "mock"
              (Mu.free, emptyReg)).2.2.heapRead 0
            = (Mu.free, emptyReg).2.heapRead 0)
        ∨ validatePluginInfo
            (((LoadPlugin envMock 9 "plugins/mock.so" "mock"
                (Mu.free, emptyReg)).2.2.heapRead 0).info) = none) :=
  ⟨by decide,
   registry_metadata_gate.2 envMock 9 "plugins/mock.so" "mock"
     (Mu.free, emptyReg) "mock" 0 (by decide)⟩

/-- The bookkeeping `GetPlugin` performs on a registered channel: it returns
the stored instance and writes `lastUsed` and `usageCount` together through
the record reference. -/
theorem GetPlugin_found (now : Nat) (ch : String) (r : Registry) (ref : Nat)
    (h : assocFind ch r.plugins = some ref) :
    GetPlugin now ch (Mu.free, r)
      = (Res.done (Except.ok (r.heapRead ref).inst),
         (Mu.free,
          r.heapWrite ref
            { r.heapRead ref with
              lastUsed := now,
              usageCount := wrap64 ((r.heapRead ref).usageCount + 1) })) := by
  simp [GetPlugin, h]

/-- C3.  Double-load rejection: `LoadPlugin` on an already-registered
channel returns the already-loaded error and the entire state — lock,
heap (hence every record, its usage counter and timestamps), and the
channel map — is returned unchanged. -/
theorem double_load_rejected (env : Env) (now : Nat) (path ch : String)
    (r : Registry) (ref : Nat) (h : assocFind ch r.plugins = some ref) :
    LoadPlugin env now path ch (Mu.free, r)
      = (Res.done (some PError.alreadyLoaded), (Mu.free, r)) := by
  simp [LoadPlugin, loadBody, h]

/-- C3 witness: reloading channel `mock` of the one-plugin registry is
rejected and changes nothing. -/
theorem double_load_rejected_witness :
    assocFind "mock" oneReg.plugins = some 0
    ∧ LoadPlugin envMock 9 "other.so" "mock" (Mu.free, oneReg)
        = (Res.done (some PError.alreadyLoaded), (Mu.free, oneReg)) :=
  ⟨by decide, double_load_rejected envMock 9 "other.so" "mock" oneReg 0
    (by decide)⟩

/-- C5.  Absence symmetry: on a channel with no registered record,
`GetPlugin`, `UnloadPlugin`, `ReloadPlugin` and `GetPluginInfo` each return
the not-found error and leave the whole state unchanged. -/
theorem absence_symmetry (env : Env) (now : Nat) (ch : String) (r : Registry)
    (h : assocFind ch r.plugins = none) :
    GetPlugin now ch (Mu.free, r)
        = (Res.done (Except.error PError.notFound), (Mu.free, r))
    ∧ UnloadPlugin ch (Mu.free, r)
        = (Res.done (some PError.notFound), (Mu.free, r))
    ∧ ReloadPlugin env now ch (Mu.free, r)
        = (Res.done (some PError.notFound), (Mu.free, r))
    ∧ GetPluginInfo ch (Mu.free, r)
        = (Res.done (Except.error PError.notFound), (Mu.free, r)) := by
  refine ⟨?_, ?_, ?_, ?_⟩ <;>
    simp [GetPlugin, UnloadPlugin, ReloadPlugin, GetPluginInfo, h]

/-- C5 witness: the four lookups on the unregistered channel `ghost` of the
one-plugin registry all fail with not-found and change nothing. -/
theorem absence_symmetry_witness :
    assocFind "ghost" oneReg.plugins = none
    ∧ GetPlugin 9 "ghost" (Mu.free, oneReg)
        = (Res.done (Except.error PError.notFound), (Mu.free, oneReg))
    ∧ UnloadPlugin "ghost" (Mu.free, oneReg)
        = (Res.done (some PError.notFound), (Mu.free, oneReg))
    ∧ ReloadPlugin envMock 9 "ghost" (Mu.free, oneReg)
        = (Res.done (some PError.notFound), (Mu.free, oneReg))
    ∧ GetPluginInfo "ghost" (Mu.free, oneReg)
        = (Res.done (Except.error PError.notFound), (Mu.free, oneReg)) :=
  ⟨by decide,
   (absence_symmetry envMock 9 "ghost" oneReg (by decide)).1,
   (absence_symmetry envMock 9 "ghost" oneReg (by decide)).2.1,
   (absence_symmetry envMock 9 "ghost" oneReg (by decide)).2.2.1,
   (absence_symmetry envMock 9 "ghost" oneReg (by decide)).2.2.2⟩

/-- C10.  Read-only introspection: `GetPluginInfo`, `ListPlugins` and
`HealthCheck` return the whole state — lock, heap (hence every record's
`usageCount`, `lastUsed`, `loadedAt`, `path`, instance and metadata) and the
channel map — exactly as they found it; in the model only `GetPlugin` (on a
hit), `LoadPlugin`, `UnloadPlugin` and `ReloadPlugin` ever produce a
different state. -/
theorem introspection_readonly (ch : String) (s : LState) :
    (GetPluginInfo ch s).2 = s
    ∧ (ListPlugins s).2 = s
    ∧ (HealthCheck s).2 = s := by
  obtain ⟨mu, r⟩ := s
  cases mu with
  | free =>
    refine ⟨?_, rfl, rfl⟩
    cases h : assocFind ch r.plugins <;> simp [GetPluginInfo, h]
  | wlocked => exact ⟨rfl, rfl, rfl⟩

/-- Writing one cell and reading it back yields the written record. -/
theorem heapRead_heapWrite_self (r : Registry) (ref : Nat)
    (lp : LoadedPlugin) (h : ref < r.heap.length) :
    (r.heapWrite ref lp).heapRead ref = lp := by
  unfold Registry.heapWrite Registry.heapRead
  rw [List.getD_eq_getD_get?, List.get?_eq_getElem?, List.getElem?_set_self']
  simp [List.getElem?_eq_getElem h]

/-- Writing one cell leaves every other cell unchanged. -/
theorem heapRead_heapWrite_ne (r : Registry) (ref ref' : Nat)
    (lp : LoadedPlugin) (h : ref' ≠ ref) :
    (r.heapWrite ref lp).heapRead ref' = r.heapRead ref' := by
  unfold Registry.heapWrite Registry.heapRead
  rw [List.getD_eq_getD_get?, List.getD_eq_getD_get?, List.get?_eq_getElem?,
    List.get?_eq_getElem?, List.getElem?_set_ne (Ne.symm h)]

/-- The first binding for a key survives mapping the values of an
association list. -/
theorem assocFind_map_of_found {α β : Type} (g : String × α → β)
    (ch : String) (l : List (String × α)) (v : α)
    (h : assocFind ch l = some v) :
    assocFind ch (l.map fun p => (p.1, g p)) = some (g (ch, v)) := by
  induction l with
  | nil => simp [assocFind] at h
  | cons p ps ih =>
    obtain ⟨k, a⟩ := p
    by_cases hp : k = ch
    · subst hp
      simp [assocFind] at h ⊢
      simp [h]
    · simp [assocFind, hp] at h ⊢
      exact ih h

/-- C4 (exhibits the defect).  `ReloadPlugin` on the registered channel
`mock` does not re-register the channel or report a load failure: it blocks
forever.  The Go code acquires the write lock, deletes the map entry, then
calls the exported `LoadPlugin`, which tries to re-acquire the same
non-reentrant `sync.RWMutex` write lock; the call therefore never returns,
with the lock still held and the channel already removed. -/
theorem reload_deadlocks :
    ReloadPlugin envMock 9 "mock" (Mu.free, oneReg)
      = (Res.blocked,
         (Mu.wlocked, { heap := [mockRecord], plugins := [] })) := by
  decide

/-- C6 counterexample.  When the factory returns a nil instance,
`LoadPlugin` does not fail with an instantiation error (no error value is
returned at all): it proceeds to call `GetInfo` on the nil instance and
panics with a nil dereference.  Nothing is registered. -/
theorem nil_factory_counterexample :
    LoadPlugin envNilFactory 9 "plugins/nil.so" "mock" (Mu.free, emptyReg)
      = (Res.panicked, (Mu.free, emptyReg)) := by
  decide

/-- C6 (amended).  If the path's factory returns a nil instance, a load of
an unregistered channel panics — the code proceeds to call `GetInfo` on the
nil instance instead of returning an instantiation error.  The registry is
left unchanged: the instance is never registered. -/
theorem nil_factory_behavior (env : Env) (now : Nat) (path ch : String)
    (r : Registry) (hfree : assocFind ch r.plugins = none)
    (hnil : env path = Artifact.factory none) :
    LoadPlugin env now path ch (Mu.free, r)
      = (Res.panicked, (Mu.free, r)) := by
  simp [LoadPlugin, loadBody, hfree, hnil]

/-- C6 witness: the nil-factory panic at a concrete fresh channel. -/
theorem nil_factory_behavior_witness :
    assocFind "pay" emptyReg.plugins = none
    ∧ envNilFactory "plugins/other.so" = Artifact.factory none
    ∧ LoadPlugin envNilFactory 4 "plugins/other.so" "pay" (Mu.free, emptyReg)
        = (Res.panicked, (Mu.free, emptyReg)) :=
  ⟨rfl, rfl,
   nil_factory_behavior envNilFactory 4 "plugins/other.so" "pay" emptyReg
     rfl rfl⟩

/-- C7.  Health-check semantics and isolation: `HealthCheck` reports on
exactly the registered channels, each mapped to `true` iff its instance's
`GetInfo` returns a non-nil result; and rewriting the record of one channel
(for instance so that its metadata fetch now fails) never changes the entry
reported for a channel bound to a different record. -/
theorem healthCheck_semantics :
    (∀ (r : Registry) (l : List (String × Bool)),
        (HealthCheck (Mu.free, r)).1 = Res.done l →
        l.map Prod.fst = r.plugins.map Prod.fst
        ∧ ∀ (ch : String) (ref : Nat), assocFind ch r.plugins = some ref →
            assocFind ch l = some ((r.heapRead ref).inst.getInfo.isSome))
    ∧ ∀ (r : Registry) (ref : Nat) (lp : LoadedPlugin) (ch' : String)
        (ref' : Nat) (l l' : List (String × Bool)),
        assocFind ch' r.plugins = some ref' → ref' ≠ ref →
        (HealthCheck (Mu.free, r)).1 = Res.done l →
        (HealthCheck (Mu.free, r.heapWrite ref lp)).1 = Res.done l' →
        assocFind ch' l' = assocFind ch' l := by
  constructor
  · intro r l h
    simp only [HealthCheck, Res.done.injEq] at h
    subst h
    constructor
    · simp [List.map_map]
    · intro ch ref href
      exact assocFind_map_of_found _ ch r.plugins ref href
  · intro r ref lp ch' ref' l l' hfind hne hl hl'
    simp only [HealthCheck, Res.done.injEq] at hl hl'
    subst hl
    subst hl'
    have hfind' : assocFind ch' (r.heapWrite ref lp).plugins = some ref' :=
      hfind
    rw [assocFind_map_of_found _ ch' _ ref' hfind,
      assocFind_map_of_found _ ch' _ ref' hfind',
      heapRead_heapWrite_ne r ref ref' lp hne]

/-- C7 witness: in the two-channel registry, `mock` (whose `GetInfo`
returns metadata) reports healthy and `dead` (whose `GetInfo` returns nil)
reports unhealthy, in the same sweep. -/
theorem healthCheck_semantics_witness :
    ([("mock", true), ("dead", false)].map Prod.fst
        = twoReg.plugins.map Prod.fst)
    ∧ assocFind "mock" [("mock", true), ("dead", false)]
        = some ((twoReg.heapRead 0).inst.getInfo.isSome)
    ∧ assocFind "dead" [("mock", true), ("dead", false)]
        = some ((twoReg.heapRead 1).inst.getInfo.isSome) :=
  have h := healthCheck_semantics.1 twoReg [("mock", true), ("dead", false)]
    (by decide)
  ⟨h.1, h.2 "mock" 0 (by decide), h.2 "dead" 1 (by decide)⟩

/-- C8 counterexample.  The claim fails on the code: `ListPlugins` copies
the map but shares the record pointers.  Concretely, the snapshot of the
one-plugin registry holds reference 0; a caller overwriting that record
through the shared pointer (here: replacing its instance) changes what the
registry itself subsequently observes — `HealthCheck` flips from healthy to
unhealthy without any registry operation having intervened. -/
theorem snapshot_not_defensive :
    (ListPlugins (Mu.free, oneReg)).1 = Res.done [("mock", 0)]
    ∧ (HealthCheck (Mu.free, oneReg)).1 = Res.done [("mock", true)]
    ∧ (HealthCheck (Mu.free, oneReg.heapWrite 0 mutatedRecord)).1
        = Res.done [("mock", false)]
    ∧ oneReg.heapWrite 0 mutatedRecord ≠ oneReg := by
  decide

/-- C8 (amended).  `ListPlugins` returns a copy of the map — a distinct
mapping value, so the caller adding, removing, or replacing entries in the
returned mapping cannot alter the registry, whose own map the call leaves
unchanged — but the copy is shallow: its entries are the registry's own
record references, and a write through such a reference lands in the
registry's heap. -/
theorem snapshot_shallow_copy (r : Registry) (ref : Nat)
    (lp : LoadedPlugin) (h : ref < r.heap.length) :
    ListPlugins (Mu.free, r) = (Res.done r.plugins, (Mu.free, r))
    ∧ (r.heapWrite ref lp).heapRead ref = lp
    ∧ (r.heapWrite ref lp).plugins = r.plugins := by
  exact ⟨rfl, heapRead_heapWrite_self r ref lp h, rfl⟩

/-- C8 witness: the shallow-copy behaviour at the one-plugin registry. -/
theorem snapshot_shallow_copy_witness :
    0 < oneReg.heap.length
    ∧ (ListPlugins (Mu.free, oneReg)
        = (Res.done oneReg.plugins, (Mu.free, oneReg))
      ∧ (oneReg.heapWrite 0 mutatedRecord).heapRead 0 = mutatedRecord
      ∧ (oneReg.heapWrite 0 mutatedRecord).plugins = oneReg.plugins) :=
  ⟨by decide, snapshot_shallow_copy oneReg 0 mutatedRecord (by decide)⟩

/-- Unfolding one call of a serial `GetPlugin` iteration. -/
theorem getPluginSeq_cons (ch : String) (t : Nat) (ts : List Nat)
    (s : LState) :
    getPluginSeq ch (t :: ts) s = getPluginSeq ch ts ((GetPlugin t ch s).2) :=
  rfl

/-- Effect of a serial run of `GetPlugin` calls on a registered channel:
the map is untouched, the heap keeps its shape, and the channel's record
accumulates one increment per call and the last call's timestamp, while its
instance is preserved. -/
theorem getPluginSeq_spec (times : List Nat) :
    ∀ (ch : String) (r : Registry) (ref : Nat),
      assocFind ch r.plugins = some ref →
      ref < r.heap.length →
      0 ≤ (r.heapRead ref).usageCount →
      (r.heapRead ref).usageCount + times.length < 2 ^ 63 →
      (getPluginSeq ch times (Mu.free, r)).1 = Mu.free
      ∧ (getPluginSeq ch times (Mu.free, r)).2.plugins = r.plugins
      ∧ (getPluginSeq ch times (Mu.free, r)).2.heap.length = r.heap.length
      ∧ ((getPluginSeq ch times (Mu.free, r)).2.heapRead ref).usageCount
          = (r.heapRead ref).usageCount + times.length
      ∧ ((getPluginSeq ch times (Mu.free, r)).2.heapRead ref).lastUsed
          = times.getLastD ((r.heapRead ref).lastUsed)
      ∧ ((getPluginSeq ch times (Mu.free, r)).2.heapRead ref).inst
          = (r.heapRead ref).inst := by
  induction times with
  | nil =>
    intro ch r ref h hlen hnn hbound
    exact ⟨rfl, rfl, rfl, by simp [getPluginSeq],
      by simp [getPluginSeq, List.getLastD], rfl⟩
  | cons t ts ih =>
    intro ch r ref h hlen hnn hbound
    have hw : wrap64 ((r.heapRead ref).usageCount + 1)
        = (r.heapRead ref).usageCount + 1 := by
      apply wrap64_succ_of_nat hnn
      have hts : (0 : Int) ≤ (ts.length : Int) := Int.natCast_nonneg _
      have : ((t :: ts).length : Int) = (ts.length : Int) + 1 := by
        push_cast [List.length_cons]; ring
      rw [this] at hbound
      linarith
    have hstep := GetPlugin_found t ch r ref h
    have hseq : getPluginSeq ch (t :: ts) (Mu.free, r)
        = getPluginSeq ch ts
            (Mu.free, r.heapWrite ref
              { r.heapRead ref with
                lastUsed := t,
                usageCount := wrap64 ((r.heapRead ref).usageCount + 1) }) := by
      rw [getPluginSeq_cons, hstep]
    have hread : (r.heapWrite ref
        { r.heapRead ref with
          lastUsed := t,
          usageCount := wrap64 ((r.heapRead ref).usageCount + 1) }).heapRead
          ref
        = { r.heapRead ref with
            lastUsed := t,
            usageCount := wrap64 ((r.heapRead ref).usageCount + 1) } :=
      heapRead_heapWrite_self r ref _ hlen
    have hlen' : ref < (r.heapWrite ref
        { r.heapRead ref with
          lastUsed := t,
          usageCount := wrap64 ((r.heapRead ref).usageCount + 1) }).heap.length := by
      simpa [Registry.heapWrite] using hlen
    have ihr := ih ch (r.heapWrite ref
        { r.heapRead ref with
          lastUsed := t,
          usageCount := wrap64 ((r.heapRead ref).usageCount + 1) }) ref h hlen'
      (by rw [hread]; simp [hw]; linarith)
      (by
        rw [hread]
        simp only [hw]
        have : ((t :: ts).length : Int) = (ts.length : Int) + 1 := by
          push_cast [List.length_cons]; ring
        rw [this] at hbound
        linarith)
    rw [hseq]
    refine ⟨ihr.1, ihr.2.1, ?_, ?_, ?_, ?_⟩
    · rw [ihr.2.2.1]
      simp [Registry.heapWrite]
    · rw [ihr.2.2.2.1, hread]
      simp only [hw]
      push_cast [List.length_cons]
      ring
    · rw [ihr.2.2.2.2.1, hread]
      show ts.getLastD t = (t :: ts).getLastD (r.heapRead ref).lastUsed
      rw [List.getLastD_cons]
    · rw [ihr.2.2.2.2.2, hread]

/-- Sanity of the interleaving decomposition: a fully serial schedule of
the two critical sections produces exactly the record that two sequential
`GetPlugin` calls produce on the shared cell. -/
theorem raceRun_serial_eq_getPluginSeq (now1 now2 : Nat) (r : Registry)
    (ch : String) (ref : Nat) (h : assocFind ch r.plugins = some ref)
    (hlen : ref < r.heap.length) :
    (raceRun now1 now2 [true, true, true, false, false, false]
        (r.heapRead ref, RaceThread.start, RaceThread.start)).1
      = (getPluginSeq ch [now1, now2] (Mu.free, r)).2.heapRead ref := by
  have h1 := GetPlugin_found now1 ch r ref h
  have hrw1 : (getPluginSeq ch [now1, now2] (Mu.free, r))
      = getPluginSeq ch [now2]
          (Mu.free, r.heapWrite ref
            { r.heapRead ref with
              lastUsed := now1,
              usageCount := wrap64 ((r.heapRead ref).usageCount + 1) }) := by
    rw [getPluginSeq_cons, h1]
  have hread1 := heapRead_heapWrite_self r ref
    { r.heapRead ref with
      lastUsed := now1,
      usageCount := wrap64 ((r.heapRead ref).usageCount + 1) } hlen
  have hlen1 : ref < (r.heapWrite ref
      { r.heapRead ref with
        lastUsed := now1,
        usageCount := wrap64 ((r.heapRead ref).usageCount + 1) }).heap.length := by
    simpa [Registry.heapWrite] using hlen
  have h2 := GetPlugin_found now2 ch (r.heapWrite ref
      { r.heapRead ref with
        lastUsed := now1,
        usageCount := wrap64 ((r.heapRead ref).usageCount + 1) }) ref h
  have hrw2 : getPluginSeq ch [now2]
      (Mu.free, r.heapWrite ref
        { r.heapRead ref with
          lastUsed := now1,
          usageCount := wrap64 ((r.heapRead ref).usageCount + 1) })
      = (Mu.free, (r.heapWrite ref
          { r.heapRead ref with
            lastUsed := now1,
            usageCount := wrap64 ((r.heapRead ref).usageCount + 1) }).heapWrite
          ref
          { (r.heapWrite ref
              { r.heapRead ref with
                lastUsed := now1,
                usageCount := wrap64 ((r.heapRead ref).usageCount + 1) }).heapRead ref with
            lastUsed := now2,
            usageCount := wrap64 (((r.heapWrite ref
              { r.heapRead ref with
                lastUsed := now1,
                usageCount := wrap64 ((r.heapRead ref).usageCount + 1) }).heapRead ref).usageCount + 1) }) := by
    rw [getPluginSeq_cons, h2]
    rfl
  rw [hrw1, hrw2]
  rw [heapRead_heapWrite_self _ ref _ (by simpa [Registry.heapWrite] using hlen1)]
  rw [hread1]
  simp [raceRun, raceStep, RaceThread.start]

/-- C2 (amended to serial calls).  On a registered channel each successful
`GetPlugin` returns the stored instance and writes `lastUsedAt = now` and
the incremented `usageCount` together, in one state transition; and after a
serial sequence of successful calls on a channel whose counter starts at 0,
`usageCount` equals exactly the number of calls and `lastUsedAt` equals the
timestamp of the most recent call.  (The original claim also covered
concurrent calls; that part fails on the code — see the counterexample.) -/
theorem usage_bookkeeping_serial (ch : String) (r : Registry) (ref : Nat)
    (times : List Nat) (h : assocFind ch r.plugins = some ref)
    (hlen : ref < r.heap.length)
    (hzero : (r.heapRead ref).usageCount = 0)
    (hk : ((times.length : Int)) < 2 ^ 63) :
    (∀ now : Nat,
        GetPlugin now ch (Mu.free, r)
          = (Res.done (Except.ok (r.heapRead ref).inst),
             (Mu.free, r.heapWrite ref
               { r.heapRead ref with
                 lastUsed := now,
                 usageCount := wrap64 ((r.heapRead ref).usageCount + 1) })))
    ∧ ((getPluginSeq ch times (Mu.free, r)).2.heapRead ref).usageCount
        = times.length
    ∧ ((getPluginSeq ch times (Mu.free, r)).2.heapRead ref).lastUsed
        = times.getLastD ((r.heapRead ref).lastUsed) := by
  have hs := getPluginSeq_spec times ch r ref h hlen (by rw [hzero])
    (by rw [hzero]; simpa using hk)
  refine ⟨fun now => GetPlugin_found now ch r ref h, ?_, hs.2.2.2.2.1⟩
  rw [hs.2.2.2.1, hzero]
  simp

/-- C2 witness: three serial calls at times 3, 4, 6 on the one-plugin
registry leave the counter at 3 and the last-used stamp at 6. -/
theorem usage_bookkeeping_serial_witness :
    GetPlugin 3 "mock" (Mu.free, oneReg)
        = (Res.done (Except.ok (oneReg.heapRead 0).inst),
           (Mu.free, oneReg.heapWrite 0
             { oneReg.heapRead 0 with
               lastUsed := 3,
               usageCount := wrap64 ((oneReg.heapRead 0).usageCount + 1) }))
    ∧ ((getPluginSeq "mock" [3, 4, 6] (Mu.free, oneReg)).2.heapRead
        0).usageCount = (([3, 4, 6] : List Nat).length : Int)
    ∧ ((getPluginSeq "mock" [3, 4, 6] (Mu.free, oneReg)).2.heapRead
        0).lastUsed = ([3, 4, 6] : List Nat).getLastD
          ((oneReg.heapRead 0).lastUsed) :=
  have h := usage_bookkeeping_serial "mock" oneReg 0 [3, 4, 6] (by decide)
    (by decide) (by decide) (by decide)
  ⟨h.1 3, h.2.1, h.2.2⟩

/-- C2 counterexample (the concurrent part of the claim fails).  Both
critical sections run to completion — two successful concurrent `GetPlugin`
calls, so the claim requires `usageCount = 2` — but under the interleaving
in which both goroutines read the counter before either writes it back
(admissible because the mutation runs under the shared `RLock`), the final
counter is 1: one increment is lost. -/
theorem usage_bookkeeping_concurrent_counterexample :
    (raceRun 8 9 [true, false, true, false, true, false]
        (mockRecord, RaceThread.start, RaceThread.start)).2.1.finished
    ∧ (raceRun 8 9 [true, false, true, false, true, false]
        (mockRecord, RaceThread.start, RaceThread.start)).2.2.finished
    ∧ mockRecord.usageCount = 0
    ∧ (raceRun 8 9 [true, false, true, false, true, false]
        (mockRecord, RaceThread.start, RaceThread.start)).1.usageCount
        = 1 := by
  decide

/-- C9 (exhibits the defect).  `GetPlugin` performs its read-modify-write
of `usageCount` while holding only the shared read lock (loader.go:89-100),
so two concurrent calls may interleave inside the critical section.  Under
the schedule in which both goroutines load the counter before either
stores, both calls complete yet the counter ends at 1 instead of 2 — a lost
update, which the specification declares a correctness bug. -/
theorem getPlugin_lost_update :
    (raceRun 11 12 [false, true, false, true, false, true]
        (mockRecord, RaceThread.start, RaceThread.start)).2.1.finished
    ∧ (raceRun 11 12 [false, true, false, true, false, true]
        (mockRecord, RaceThread.start, RaceThread.start)).2.2.finished
    ∧ (raceRun 11 12 [false, true, false, true, false, true]
        (mockRecord, RaceThread.start, RaceThread.start)).1.usageCount
        = 1 := by
  decide
